import Mathlib

/-!
Shallow embedding of the conversation store (src/api/redis_client.py) and of
the sliding-window rate limiter (src/api/middleware/rate_limit.py), with
proofs of the behavioural properties stated in the design document.
-/

namespace VercelGemini

/-- Wire-level message record: a JSON object with the optional keys that
sanitize_message inspects through message.get. Field values are modeled as
strings, so the str coercions of the source are identities here. -/
structure RawMsg where
  role : Option String
  content : Option String
  timestamp : Option String
deriving DecidableEq

/-- An element of a raw messages array: either a JSON object (a Python dict)
or some other JSON value, which the isinstance(msg, dict) filter drops. -/
inductive RawMsgElem
| dict (m : RawMsg)
| nonDict
deriving DecidableEq

/-- The messages field of a raw conversation: the key can be absent, present
with a non-list value (coerced to an empty list), or a list of elements. -/
inductive MessagesField
| absent
| notList
| list (es : List RawMsgElem)
deriving DecidableEq

/-- Wire-level conversation record: a JSON object with optional keys. -/
structure RawConv where
  id : Option String
  title : Option String
  messages : MessagesField
  created_at : Option String
  updated_at : Option String
deriving DecidableEq

/-- Sanitized message, the output shape of sanitize_message. -/
structure Message where
  role : String
  content : String
  timestamp : String
deriving DecidableEq

/-- Sanitized conversation, the output shape of sanitize_conversation. -/
structure Conversation where
  id : String
  title : String
  messages : List Message
  created_at : String
  updated_at : String
deriving DecidableEq

/-- The Python exception kinds that reach the callers of the store:
valueError is the validation failure raised by sanitize_conversation (the
ValidationError of the design document), redisError is the RedisError wrapper
raised by the store operations. -/
inductive PyError
| valueError
| redisError
deriving DecidableEq

/-- sanitize_message (redis_client.py lines 177 to 186). The now argument
stands for datetime.now().isoformat() at normalization time. -/
def sanitize_message (now : String) : RawMsgElem → Message
| .nonDict => { role := "system", content := "Invalid message format", timestamp := now }
| .dict m =>
  { role := m.role.getD "system"
    content := m.content.getD ""
    timestamp := m.timestamp.getD now }

/-- The required-fields test of sanitize_conversation: each of id, title,
messages, created_at, updated_at must be present as a key. -/
def requiredPresent (c : RawConv) : Bool :=
  c.id.isSome && c.title.isSome &&
    (match c.messages with | .absent => false | _ => true) &&
    c.created_at.isSome && c.updated_at.isSome

/-- sanitize_conversation (redis_client.py lines 159 to 175): ValueError when
a required key is missing; a non-list messages value is replaced by an empty
list; non-dict elements are dropped; dict elements pass through
sanitize_message. -/
def sanitize_conversation (now : String) (c : RawConv) : Except PyError Conversation :=
  if requiredPresent c then
    .ok
      { id := c.id.getD ""
        title := c.title.getD ""
        messages :=
          (match c.messages with
           | .absent => []
           | .notList => []
           | .list es =>
             es.filterMap (fun e =>
               match e with
               | .dict m => some (sanitize_message now (.dict m))
               | .nonDict => none))
        created_at := c.created_at.getD ""
        updated_at := c.updated_at.getD "" }
  else .error .valueError

/-- What a stored value under the conversation namespace can look like to the
decoder: bytes that json.loads rejects, valid JSON that is not an object, or
a JSON object (modeled as RawConv). -/
inductive StoredVal
| malformed
| nonDict
| rawJson (c : RawConv)
deriving DecidableEq

/-- The conversation namespace of the backend: an association list from
conversation id to stored value (the real key is the id behind the namespace
marker, and the namespace holds nothing else). Key TTLs of conversations are
not modeled; no claim depends on them. -/
abbrev StoreState := List (String × StoredVal)

/-- client.get on a conversation key. -/
def lookupK : StoreState → String → Option StoredVal
| [], _ => none
| (k, v) :: rest, q => if k = q then some v else lookupK rest q

/-- client.setex on a conversation key: overwrite if present, append if new. -/
def insertK : StoreState → String → StoredVal → StoreState
| [], k, v => [(k, v)]
| e :: rest, k, v => if e.1 = k then (k, v) :: rest else e :: insertK rest k v

/-- Lexicographic comparison of character lists by code point, the order
Python uses on strings. Executable stand-in for the noncomputable-in-kernel
iterator comparison of the library. -/
def charListLt : List Char → List Char → Bool
| _, [] => false
| [], _ :: _ => true
| a :: as, b :: bs => if a < b then true else if b < a then false else charListLt as bs

/-- Lexicographic string comparison by code point. -/
def strLt (a b : String) : Bool := charListLt a.data b.data

/-- One insertion step of the descending sort: x is placed before the first
element whose updated_at is strictly smaller, so an element coming later in
the input stays behind earlier elements with an equal key, matching the
stability of list.sort with reverse=True. -/
def insertConv (x : Conversation) : List Conversation → List Conversation
| [] => [x]
| y :: ys => if strLt y.updated_at x.updated_at then x :: y :: ys else y :: insertConv x ys

/-- conversations.sort(key=lambda x: x.get(updated_at, defaultEmpty),
reverse=True): stable sort by updated_at descending under lexicographic
string comparison (redis_client.py line 145). -/
def sortConvsDesc (l : List Conversation) : List Conversation :=
  l.foldl (fun acc x => insertConv x acc) []

/-- The per-record decode step of get_conversations (redis_client.py lines
124 to 142): data that does not decode is skipped, non-objects and objects
without an id key are skipped, records that sanitize_conversation rejects are
skipped; every skip only logs and continues. -/
def decodeEntry (now : String) (e : String × StoredVal) : Option Conversation :=
  match e.2 with
  | .malformed => none
  | .nonDict => none
  | .rawJson c =>
    if c.id.isSome then (sanitize_conversation now c).toOption else none

/-- get_conversations (redis_client.py lines 104 to 157). backendUp models
whether the connection tier works: when it does not, redis.ConnectionError or
redis.TimeoutError is wrapped and re-raised as RedisError; otherwise every
stored record is decoded, bad records are skipped per record, and the
survivors are sorted by updated_at descending. -/
def get_conversations (now : String) (backendUp : Bool) (st : StoreState) :
    Except PyError (List Conversation) :=
  if backendUp then .ok (sortConvsDesc (st.filterMap (decodeEntry now)))
  else .error .redisError

/-- get_conversation (redis_client.py lines 241 to 259): an absent key gives
None; json.JSONDecodeError gives None; any other failure, including the
ValueError of sanitize_conversation and the TypeError a non-object value
causes inside it, is wrapped into RedisError by the generic except clause. -/
def get_conversation (now : String) (backendUp : Bool) (st : StoreState)
    (cid : String) : Except PyError (Option Conversation) :=
  if backendUp then
    match lookupK st cid with
    | none => .ok none
    | some .malformed => .ok none
    | some .nonDict => .error .redisError
    | some (.rawJson c) =>
      match sanitize_conversation now c with
      | .ok conv => .ok (some conv)
      | .error _ => .error .redisError
  else .error .redisError

/-- json.dumps of a sanitized conversation, as the decoder will read it back. -/
def Conversation.toRaw (c : Conversation) : RawConv :=
  { id := some c.id
    title := some c.title
    messages := .list (c.messages.map (fun m =>
      .dict { role := some m.role, content := some m.content, timestamp := some m.timestamp }))
    created_at := some c.created_at
    updated_at := some c.updated_at }

/-- save_conversation (redis_client.py lines 188 to 212): sanitize first (its
ValueError, like every other failure in the function, is wrapped into
RedisError by the except clause), then connect, stamp updated_at with now,
and store under the conversation id. The created_at defaulting branch of the
source is unreachable because sanitize_conversation already required
created_at. The 30-day setex TTL is not modeled. The state comes back
unchanged on every failure, because each failure is raised before
client.setex runs. -/
def save_conversation (now : String) (backendUp : Bool) (st : StoreState)
    (c : RawConv) : Except PyError Unit × StoreState :=
  match sanitize_conversation now c with
  | .error _ => (.error .redisError, st)
  | .ok conv =>
    if backendUp then
      let conv2 := { conv with updated_at := now }
      (.ok (), insertK st conv2.id (.rawJson conv2.toRaw))
    else (.error .redisError, st)

/-- The dict elements of a raw messages array, in order. -/
def dictMessages (c : RawConv) : List RawMsg :=
  match c.messages with
  | .list es => es.filterMap (fun e => match e with | .dict m => some m | .nonDict => none)
  | _ => []

/-- Rate limit configuration: MAX_REQUESTS_PER_WINDOW and RATE_LIMIT_WINDOW
(rate_limit.py lines 13 to 14, defaults 60 requests per 60 seconds). -/
structure RLConfig where
  maxRequests : Nat
  window : Nat
deriving DecidableEq

/-- The declared cache lifetime in seconds (rate_limit.py line 19). The
constant is defined in the source but nothing reads it: check_rate_limit
trusts the expiry it stored in the cache entry instead. -/
def cache_ttl : Nat := 5

/-- State of the rate limiter for one client: cache models the process-local
entry of _rate_limit_cache for that client as (count, expiry); backend models
the rate_limit key of that client as (count, absolute expiry), where a key
whose expiry has passed behaves as absent; backendUp models whether
get_redis_connection and the pipeline succeed. The clear at 1000 entries is
not modeled because a single-client cache never exceeds one entry. -/
structure RLState where
  cache : Option (Nat × Int)
  backend : Option (Nat × Int)
  backendUp : Bool
deriving DecidableEq

/-- Return value of check_rate_limit: (allowed, remaining, ttl). -/
structure RLResult where
  allowed : Bool
  remaining : Int
  resetSeconds : Int
deriving DecidableEq

/-- The backend path of check_rate_limit (rate_limit.py lines 48 to 75): the
pipeline reads the pre-increment TTL (minus two when the key is absent or
expired, following the backend convention), increments the counter, reapplies
the window expiry, then the function caches (new_count, current_time + ttl)
and allows while new_count is at most the limit, returning the pre-increment
TTL. Any failure on this path is caught and answered fail-open as allowed
with the full quota and zero reset, with no state change, because the
exception fires before the cache update. -/
def backendStep (cfg : RLConfig) (s : RLState) (t : Int) : RLResult × RLState :=
  if s.backendUp then
    let oldCount : Nat :=
      match s.backend with
      | some (c, exp) => if t < exp then c else 0
      | none => 0
    let ttl : Int :=
      match s.backend with
      | some (_, exp) => if t < exp then exp - t else -2
      | none => -2
    let newCount := oldCount + 1
    ({ allowed := newCount ≤ cfg.maxRequests
       remaining := (cfg.maxRequests : Int) - (newCount : Int)
       resetSeconds := ttl },
     { s with
        backend := some (newCount, t + (cfg.window : Int))
        cache := some (newCount, t + ttl) })
  else
    ({ allowed := true, remaining := (cfg.maxRequests : Int), resetSeconds := 0 }, s)

/-- check_rate_limit (rate_limit.py lines 37 to 75): a cached entry whose
expiry lies strictly after current_time is answered from the cache, with no
backend round-trip and no state change; otherwise the backend path runs. -/
def check_rate_limit (cfg : RLConfig) (s : RLState) (t : Int) : RLResult × RLState :=
  match s.cache with
  | some (count, expiry) =>
    if t < expiry then
      ({ allowed := count < cfg.maxRequests
         remaining := (cfg.maxRequests : Int) - (count : Int)
         resetSeconds := expiry - t }, s)
    else backendStep cfg s t
  | none => backendStep cfg s t

/-- Run check_rate_limit for one client at a sequence of times, collecting
the results and the final state. -/
def runChecks (cfg : RLConfig) : RLState → List Int → List RLResult × RLState
| s, [] => ([], s)
| s, t :: ts =>
  let p := check_rate_limit cfg s t
  let q := runChecks cfg p.2 ts
  (p.1 :: q.1, q.2)

/-- The descending listing order: the later record's updated_at is at most
the earlier record's, under lexicographic string comparison. -/
def updGe (a b : Conversation) : Prop := b.updated_at ≤ a.updated_at

/-- A rate limiter state before any request, with a reachable backend. -/
def freshRL : RLState := { cache := none, backend := none, backendUp := true }

/-- The default configuration of rate_limit.py: 60 requests per 60 seconds. -/
def defaultRLConfig : RLConfig := { maxRequests := 60, window := 60 }

/-- The boundary scenario of the design document: limit 3, window 60. -/
def boundaryRLConfig : RLConfig := { maxRequests := 3, window := 60 }

/-! Concrete records used by witnesses and counterexamples. -/

/-- Sanitized conversation last updated in February 2024. -/
def convFeb : Conversation :=
  { id := "f", title := "F", messages := [], created_at := "2024-01-01T00:00:00",
    updated_at := "2024-02-01T00:00:00" }

/-- Sanitized conversation last updated in January 2024. -/
def convJan : Conversation :=
  { id := "j", title := "J", messages := [], created_at := "2024-01-01T00:00:00",
    updated_at := "2024-01-01T00:00:00" }

/-- Sanitized conversation last updated in December 2023. -/
def convDec : Conversation :=
  { id := "d", title := "D", messages := [], created_at := "2023-12-01T00:00:00",
    updated_at := "2023-12-01T00:00:00" }

/-- Backend contents holding the three ordering-example records, stored out
of order. -/
def stOrd : StoreState :=
  [("j", .rawJson convJan.toRaw), ("f", .rawJson convFeb.toRaw), ("d", .rawJson convDec.toRaw)]

/-- A raw conversation with every required key missing. -/
def rawNoFields : RawConv :=
  { id := none, title := none, messages := .absent, created_at := none, updated_at := none }

/-- A raw conversation that is complete except for the id key. -/
def rawNoId : RawConv :=
  { id := none, title := some "t", messages := .list [],
    created_at := some "2024-01-01T00:00:00", updated_at := some "2024-01-02T00:00:00" }

/-- A raw conversation that is valid JSON with an id but without a title. -/
def rawNoTitle : RawConv :=
  { id := some "k", title := none, messages := .list [],
    created_at := some "2024-01-01T00:00:00", updated_at := some "2024-01-02T00:00:00" }

/-- A raw conversation with one role-less message, one message with the
unknown role banana, and one non-dict element. -/
def rawRoles : RawConv :=
  { id := some "cid", title := some "t"
    messages := .list
      [.dict { role := none, content := some "hi", timestamp := some "ts" },
       .dict { role := some "banana", content := some "yo", timestamp := some "ts" },
       .nonDict]
    created_at := some "2024-01-01T00:00:00", updated_at := some "2024-01-02T00:00:00" }

deriving instance DecidableEq for Except

/-! Helper lemmas. -/

theorem charListLt_iff : ∀ as bs : List Char, charListLt as bs = true ↔ List.Lex (· < ·) as bs
| as, [] => by
  refine iff_of_false ?_ (List.Lex.not_nil_right _ _)
  cases as <;> simp [charListLt]
| [], _ :: _ => iff_of_true rfl List.Lex.nil
| a :: as, b :: bs => by
  unfold charListLt
  by_cases h1 : a < b
  · exact iff_of_true (by simp [h1]) (List.Lex.rel h1)
  · by_cases h2 : b < a
    · refine iff_of_false (by simp [h1, h2]) ?_
      intro hlex
      cases hlex with
      | cons h => exact lt_irrefl a h2
      | rel h => exact h1 h
    · have heq : a = b := le_antisymm (le_of_not_lt h2) (le_of_not_lt h1)
      subst heq
      simp only [if_neg h1, if_neg h2]
      exact (charListLt_iff as bs).trans List.Lex.cons_iff.symm

theorem strLt_iff (a b : String) : strLt a b = true ↔ a < b := by
  rw [String.lt_iff_toList_lt]
  exact charListLt_iff a.toList b.toList

theorem strLt_false_iff (a b : String) : strLt a b = false ↔ b ≤ a := by
  rw [← not_lt, ← strLt_iff]
  simp

theorem insertConv_perm (x : Conversation) :
    ∀ l : List Conversation, (insertConv x l).Perm (x :: l)
| [] => List.Perm.refl _
| y :: ys => by
  unfold insertConv
  split
  · exact List.Perm.refl _
  · exact ((insertConv_perm x ys).cons y).trans (List.Perm.swap x y ys)

theorem pairwise_insertConv {x : Conversation} :
    ∀ {l : List Conversation}, l.Pairwise updGe → (insertConv x l).Pairwise updGe
| [], _ => List.pairwise_singleton _ _
| y :: ys, h => by
  obtain ⟨hy, hys⟩ := List.pairwise_cons.mp h
  unfold insertConv
  by_cases hc : strLt y.updated_at x.updated_at = true
  · rw [if_pos hc]
    have hxy : y.updated_at ≤ x.updated_at := le_of_lt ((strLt_iff _ _).mp hc)
    refine List.pairwise_cons.mpr ⟨?_, h⟩
    intro z hz
    rcases List.mem_cons.mp hz with rfl | hz2
    · exact hxy
    · exact le_trans (hy z hz2) hxy
  · rw [if_neg hc]
    have hyx : x.updated_at ≤ y.updated_at :=
      (strLt_false_iff _ _).mp (Bool.eq_false_iff.mpr hc)
    refine List.pairwise_cons.mpr ⟨?_, pairwise_insertConv hys⟩
    intro z hz
    rcases List.mem_cons.mp ((insertConv_perm x ys).subset hz) with rfl | hz2
    · exact hyx
    · exact hy z hz2

theorem foldl_insertConv_perm :
    ∀ (l acc : List Conversation),
      (l.foldl (fun a x => insertConv x a) acc).Perm (acc ++ l)
| [], acc => by simp
| x :: l, acc => by
  simp only [List.foldl_cons]
  refine (foldl_insertConv_perm l (insertConv x acc)).trans ?_
  refine (List.Perm.append_right l (insertConv_perm x acc)).trans ?_
  exact List.perm_middle.symm

theorem sortConvsDesc_perm (l : List Conversation) : (sortConvsDesc l).Perm l := by
  simpa [sortConvsDesc] using foldl_insertConv_perm l []

theorem foldl_insertConv_pairwise :
    ∀ (l acc : List Conversation), acc.Pairwise updGe →
      (l.foldl (fun a x => insertConv x a) acc).Pairwise updGe
| [], _, h => h
| x :: l, acc, h => by
  simp only [List.foldl_cons]
  exact foldl_insertConv_pairwise l _ (pairwise_insertConv h)

theorem sortConvsDesc_pairwise (l : List Conversation) :
    (sortConvsDesc l).Pairwise updGe :=
  foldl_insertConv_pairwise l [] List.Pairwise.nil

theorem lookupK_insertK : ∀ (st : StoreState) (k : String) (v : StoredVal),
    lookupK (insertK st k v) k = some v
| [], k, v => by simp [insertK, lookupK]
| e :: rest, k, v => by
  unfold insertK
  by_cases h : e.1 = k
  · rw [if_pos h]
    simp [lookupK]
  · rw [if_neg h]
    unfold lookupK
    rw [if_neg h]
    exact lookupK_insertK rest k v

theorem sanitize_toRaw (now : String) (c : Conversation) :
    sanitize_conversation now c.toRaw = .ok c := by
  have h : (c.messages.map (fun m => RawMsgElem.dict
      { role := some m.role, content := some m.content, timestamp := some m.timestamp })).filterMap
        (fun e => match e with
          | RawMsgElem.dict m => some (sanitize_message now (.dict m))
          | RawMsgElem.nonDict => none) = c.messages := by
    rw [List.filterMap_map]
    exact List.filterMap_some _
  exact congrArg (fun ms => Except.ok
    (Conversation.mk c.id c.title ms c.created_at c.updated_at)) h

theorem sanitize_ok_id {now : String} {c : RawConv} {conv : Conversation}
    (h : sanitize_conversation now c = .ok conv) : conv.id = c.id.getD "" := by
  unfold sanitize_conversation at h
  split at h
  · cases h
    rfl
  · cases h

theorem filterMap_dict_eq (now : String) : ∀ es : List RawMsgElem,
    es.filterMap (fun e => match e with
      | .dict m => some (sanitize_message now (.dict m))
      | .nonDict => none)
    = (es.filterMap (fun e => match e with
        | .dict m => some m
        | .nonDict => none)).map (fun m => sanitize_message now (.dict m))
| [] => rfl
| e :: es => by
  cases e <;> simp [List.filterMap_cons, filterMap_dict_eq now es]

theorem sanitize_ok_messages {now : String} {c : RawConv} {conv : Conversation}
    (h : sanitize_conversation now c = .ok conv) :
    conv.messages = (dictMessages c).map (fun m => sanitize_message now (.dict m)) := by
  unfold sanitize_conversation at h
  split at h
  · cases h
    unfold dictMessages
    cases c.messages with
    | absent => rfl
    | notList => rfl
    | list es => exact filterMap_dict_eq now es
  · cases h

theorem save_invalid {now : String} {b : Bool} {st : StoreState} {c : RawConv}
    (h : requiredPresent c = false) :
    save_conversation now b st c = (.error .redisError, st) := by
  have hs : sanitize_conversation now c = .error .valueError := by
    simp [sanitize_conversation, h]
  simp [save_conversation, hs]

theorem length_filterMap_of_isSome {α β : Type} (f : α → Option β) :
    ∀ l : List α, (∀ e ∈ l, (f e).isSome = true) → (l.filterMap f).length = l.length
| [], _ => rfl
| a :: l, h => by
  obtain ⟨b, hb⟩ := Option.isSome_iff_exists.mp (h a (List.mem_cons_self a l))
  rw [List.filterMap_cons, hb]
  simp [length_filterMap_of_isSome f l (fun e he => h e (List.mem_cons_of_mem _ he))]

/-! Claim theorems. -/

/-- Claim C1, evaluation of the code at the failing input: with limit 3 and
window 60 on a fresh single-client state, checks at times 100, 100, 100, 100
and 160 are all allowed. In particular the fourth check inside the window is
not denied: it is answered from the still-live local cache entry, whose count
stays at 2 because cache-served checks never increment the backend counter.
The post-window check at 160 is allowed again with remaining 2, the one part
of the claim the code does satisfy. -/
theorem c1_rate_limit_boundary :
    (runChecks boundaryRLConfig freshRL [100, 100, 100, 100, 160]).1.map RLResult.allowed
      = [true, true, true, true, true] ∧
    (runChecks boundaryRLConfig freshRL [100, 100, 100, 100, 160]).1.map RLResult.remaining
      = [2, 1, 1, 1, 2] ∧
    (runChecks boundaryRLConfig freshRL [100, 100, 100, 100]).2.backend = some (2, 160) := by
  decide

/-- Claim C3: when the local cache cannot answer (no entry for the client, or
the entry has expired) and the backend is unreachable, check_rate_limit does
not raise: it returns allowed with the full quota remaining and reset 0, and
leaves all state unchanged. -/
theorem c3_fail_open (cfg : RLConfig) (s : RLState) (t : Int)
    (hdown : s.backendUp = false)
    (hmiss : ∀ count expiry, s.cache = some (count, expiry) → expiry ≤ t) :
    check_rate_limit cfg s t
      = ({ allowed := true, remaining := (cfg.maxRequests : Int), resetSeconds := 0 }, s) := by
  have hb : backendStep cfg s t
      = ({ allowed := true, remaining := (cfg.maxRequests : Int), resetSeconds := 0 }, s) := by
    unfold backendStep
    rw [hdown]
    simp
  cases hc : s.cache with
  | none =>
    unfold check_rate_limit
    rw [hc]
    exact hb
  | some p =>
    obtain ⟨count, expiry⟩ := p
    unfold check_rate_limit
    simp only [hc]
    rw [if_neg (not_lt.mpr (hmiss count expiry hc))]
    exact hb

/-- Witness for claim C3 at a concrete input: backend down, no cache entry. -/
theorem c3_fail_open_witness :
    check_rate_limit boundaryRLConfig
        { cache := none, backend := some (5, 100), backendUp := false } 50
      = ({ allowed := true, remaining := 3, resetSeconds := 0 },
         { cache := none, backend := some (5, 100), backendUp := false }) :=
  c3_fail_open boundaryRLConfig
    { cache := none, backend := some (5, 100), backendUp := false } 50 rfl
    (fun _ _ h => Option.noConfusion h)

/-- Claim C8, evaluation of the code at the failing input: with the default
configuration, checks at times 0 and 0 leave the cache entry (2, 60), stored
at time 0. The check at time 10, more than cache_ttl seconds after the entry
was stored, is still answered from the cache: the whole state, in particular
the backend counter, is unchanged and no backend pipeline runs, where the
claim requires any check later than cache_ttl seconds to go to the backend.
The source defines cache_ttl but never reads it. -/
theorem c8_cache_ttl_unused :
    (cache_ttl : Int) < 10 - 0 ∧
    (runChecks defaultRLConfig freshRL [0, 0]).2
      = { cache := some (2, 60), backend := some (2, 60), backendUp := true } ∧
    check_rate_limit defaultRLConfig
        { cache := some (2, 60), backend := some (2, 60), backendUp := true } 10
      = ({ allowed := true, remaining := 58, resetSeconds := 50 },
         { cache := some (2, 60), backend := some (2, 60), backendUp := true }) := by
  decide

/-- Claim C9: a live cache entry answers check_rate_limit purely from the
cached pair: the state, in particular the backend counter, is unchanged, and
any two cache-served checks agree on allowed and remaining, both being
functions of the cached count alone. -/
theorem c9_cache_hit_frame (cfg : RLConfig) (s : RLState) (t1 t2 : Int)
    (count : Nat) (expiry : Int)
    (hc : s.cache = some (count, expiry)) (h1 : t1 < expiry) (h2 : t2 < expiry) :
    check_rate_limit cfg s t1
      = ({ allowed := decide (count < cfg.maxRequests)
           remaining := (cfg.maxRequests : Int) - (count : Int)
           resetSeconds := expiry - t1 }, s) ∧
    (check_rate_limit cfg s t1).1.allowed = (check_rate_limit cfg s t2).1.allowed ∧
    (check_rate_limit cfg s t1).1.remaining = (check_rate_limit cfg s t2).1.remaining := by
  have e1 : check_rate_limit cfg s t1
      = ({ allowed := decide (count < cfg.maxRequests)
           remaining := (cfg.maxRequests : Int) - (count : Int)
           resetSeconds := expiry - t1 }, s) := by
    unfold check_rate_limit
    simp only [hc]
    rw [if_pos h1]
  have e2 : check_rate_limit cfg s t2
      = ({ allowed := decide (count < cfg.maxRequests)
           remaining := (cfg.maxRequests : Int) - (count : Int)
           resetSeconds := expiry - t2 }, s) := by
    unfold check_rate_limit
    simp only [hc]
    rw [if_pos h2]
  refine ⟨e1, ?_, ?_⟩
  · rw [e1, e2]
  · rw [e1, e2]

/-- Witness for claim C9 at a concrete input: cached count 7, expiry 100,
checks at times 10 and 50. -/
theorem c9_cache_hit_frame_witness :
    check_rate_limit defaultRLConfig
        { cache := some (7, 100), backend := some (7, 100), backendUp := true } 10
      = ({ allowed := true, remaining := 53, resetSeconds := 90 },
         { cache := some (7, 100), backend := some (7, 100), backendUp := true }) ∧
    (check_rate_limit defaultRLConfig
        { cache := some (7, 100), backend := some (7, 100), backendUp := true } 10).1.allowed
      = (check_rate_limit defaultRLConfig
        { cache := some (7, 100), backend := some (7, 100), backendUp := true } 50).1.allowed ∧
    (check_rate_limit defaultRLConfig
        { cache := some (7, 100), backend := some (7, 100), backendUp := true } 10).1.remaining
      = (check_rate_limit defaultRLConfig
        { cache := some (7, 100), backend := some (7, 100), backendUp := true } 50).1.remaining :=
  c9_cache_hit_frame defaultRLConfig
    { cache := some (7, 100), backend := some (7, 100), backendUp := true }
    10 50 7 100 rfl (by decide) (by decide)

/-- Claim C2 as amended: a raw conversation missing a required key makes
save_conversation fail as a whole before anything is written, so the stored
state comes back unchanged; the error reaching the caller is the RedisError
wrapper around the validation failure. -/
theorem c2_save_validation_fails (now : String) (b : Bool) (st : StoreState)
    (c : RawConv) (h : requiredPresent c = false) :
    save_conversation now b st c = (.error .redisError, st) :=
  save_invalid h

/-- Counterexample to claim C2 as stated: saving the record with every
required key missing does fail, but the exception kind is redisError, not
the valueError that realizes the ValidationError the claim names. -/
theorem c2_save_validation_counterexample :
    (save_conversation "T" true [] rawNoFields).1 = .error .redisError ∧
    (save_conversation "T" true [] rawNoFields).1 ≠ .error .valueError := by
  decide

/-- Witness for claim C2 at a concrete input. -/
theorem c2_save_validation_witness :
    save_conversation "T" true [] rawNoFields = (.error .redisError, []) :=
  c2_save_validation_fails "T" true [] rawNoFields (by decide)

/-- Claim C4: when every record on both sides is decodable, one malformed
record between them is skipped without aborting: the listing succeeds and
returns a permutation of the decoded valid records, exactly as many as there
are valid entries; with the connection down the same listing instead raises
RedisError. -/
theorem c4_listing_isolation (now k : String) (st1 st2 : StoreState)
    (h : ∀ e ∈ st1 ++ st2, (decodeEntry now e).isSome = true) :
    (∃ l, get_conversations now true (st1 ++ (k, .malformed) :: st2) = .ok l ∧
      l.Perm ((st1 ++ st2).filterMap (decodeEntry now)) ∧
      l.length = (st1 ++ st2).length) ∧
    get_conversations now false (st1 ++ (k, .malformed) :: st2) = .error .redisError := by
  have hfm : (st1 ++ (k, StoredVal.malformed) :: st2).filterMap (decodeEntry now)
      = (st1 ++ st2).filterMap (decodeEntry now) := by
    simp [List.filterMap_append, List.filterMap_cons, decodeEntry]
  constructor
  · refine ⟨sortConvsDesc ((st1 ++ (k, .malformed) :: st2).filterMap (decodeEntry now)),
      by simp [get_conversations], ?_, ?_⟩
    · rw [hfm]
      exact sortConvsDesc_perm _
    · rw [hfm, (sortConvsDesc_perm _).length_eq]
      exact length_filterMap_of_isSome _ _ h
  · simp [get_conversations]

/-- Witness for claim C4 at a concrete input: two valid records around one
malformed record. -/
theorem c4_listing_isolation_witness :
    (∃ l, get_conversations "T" true
        ([("f", StoredVal.rawJson convFeb.toRaw)]
          ++ ("x", StoredVal.malformed) :: [("j", StoredVal.rawJson convJan.toRaw)]) = .ok l ∧
      l.Perm (([("f", StoredVal.rawJson convFeb.toRaw)]
          ++ [("j", StoredVal.rawJson convJan.toRaw)]).filterMap (decodeEntry "T")) ∧
      l.length = ([("f", StoredVal.rawJson convFeb.toRaw)]
          ++ [("j", StoredVal.rawJson convJan.toRaw)]).length) ∧
    get_conversations "T" false
        ([("f", StoredVal.rawJson convFeb.toRaw)]
          ++ ("x", StoredVal.malformed) :: [("j", StoredVal.rawJson convJan.toRaw)])
      = .error .redisError :=
  c4_listing_isolation "T" "x"
    [("f", StoredVal.rawJson convFeb.toRaw)] [("j", StoredVal.rawJson convJan.toRaw)]
    (by decide)

/-- Claim C5: a successful listing is a permutation of the surviving decoded
records, pairwise sorted by updated_at descending under lexicographic string
comparison. -/
theorem c5_listing_sorted (now : String) (st : StoreState) (l : List Conversation)
    (h : get_conversations now true st = .ok l) :
    l.Pairwise updGe ∧ l.Perm (st.filterMap (decodeEntry now)) := by
  have hl : sortConvsDesc (st.filterMap (decodeEntry now)) = l := by
    simpa [get_conversations] using h
  subst hl
  exact ⟨sortConvsDesc_pairwise _, sortConvsDesc_perm _⟩

/-- Witness for claim C5, the ordering example of the design document: the
February, January and December records stored out of order are listed in the
order February, January, December, and that listing is pairwise descending. -/
theorem c5_listing_sorted_witness :
    get_conversations "T" true stOrd = .ok [convFeb, convJan, convDec] ∧
    List.Pairwise updGe [convFeb, convJan, convDec] := by
  have h : get_conversations "T" true stOrd = .ok [convFeb, convJan, convDec] := by decide
  exact ⟨h, (c5_listing_sorted "T" stOrd [convFeb, convJan, convDec] h).1⟩

/-- Claim C6 as amended: after a successful save, getting the conversation
back returns messages whose role is the original role whenever one was
present (unknown roles such as banana included) and the string system exactly
when the role key was missing. -/
theorem c6_role_roundtrip (now now2 : String) (st : StoreState) (c : RawConv)
    (cid : String) (st2 : StoreState)
    (hid : c.id = some cid)
    (hsave : save_conversation now true st c = (.ok (), st2)) :
    ∃ conv, get_conversation now2 true st2 cid = .ok (some conv) ∧
      conv.messages.map Message.role
        = (dictMessages c).map (fun m => m.role.getD "system") := by
  unfold save_conversation at hsave
  cases hs : sanitize_conversation now c with
  | error e =>
    rw [hs] at hsave
    simp at hsave
  | ok conv =>
    rw [hs] at hsave
    simp only [if_true] at hsave
    have hst2 : st2 = insertK st conv.id (.rawJson ({ conv with updated_at := now } : Conversation).toRaw) := by
      have := congrArg Prod.snd hsave
      simpa using this.symm
    have hcid : conv.id = cid := by
      rw [sanitize_ok_id hs, hid]
      rfl
    refine ⟨{ conv with updated_at := now }, ?_, ?_⟩
    · subst hst2
      rw [hcid]
      simp [get_conversation, lookupK_insertK, sanitize_toRaw]
    · have hm := sanitize_ok_messages hs
      calc ({ conv with updated_at := now } : Conversation).messages.map Message.role
          = conv.messages.map Message.role := rfl
        _ = ((dictMessages c).map (fun m => sanitize_message now (.dict m))).map Message.role := by
            rw [hm]
        _ = (dictMessages c).map (fun m => m.role.getD "system") := by
            rw [List.map_map]
            rfl

/-- Counterexample to claim C6 as stated: a message whose role is the unknown
string banana keeps that role through sanitize_message instead of being
coerced to system; only a missing role is defaulted. -/
theorem c6_role_roundtrip_counterexample :
    (sanitize_message "T"
      (.dict { role := some "banana", content := none, timestamp := none })).role = "banana" ∧
    "banana" ≠ "system" :=
  ⟨rfl, by decide⟩

/-- Witness for claim C6 at a concrete input: a conversation with one
role-less message and one banana-role message round-trips to roles
system and banana. -/
theorem c6_role_roundtrip_witness :
    ∃ conv, get_conversation "M" true (save_conversation "N" true [] rawRoles).2 "cid"
        = .ok (some conv) ∧
      conv.messages.map Message.role = ["system", "banana"] := by
  obtain ⟨conv, h1, h2⟩ :=
    c6_role_roundtrip "N" "M" [] rawRoles "cid" (save_conversation "N" true [] rawRoles).2
      rfl rfl
  exact ⟨conv, h1, by rw [h2]; decide⟩

/-- Claim C7 as amended: the store generates no id: a conversation submitted
to save without an id key fails with the RedisError wrapper and nothing is
stored (the HTTP layer creates an id before the store is ever called). -/
theorem c7_save_without_id (now : String) (b : Bool) (st : StoreState)
    (c : RawConv) (h : c.id = none) :
    save_conversation now b st c = (.error .redisError, st) := by
  apply save_invalid
  simp [requiredPresent, h]

/-- Counterexample to claim C7 as stated: saving an otherwise complete record
with no id does not succeed, and the store is left unchanged, so no generated
id is ever stored. -/
theorem c7_save_without_id_counterexample :
    (save_conversation "T" true [] rawNoId).1 ≠ .ok () ∧
    (save_conversation "T" true [] rawNoId).2 = [] := by
  decide

/-- Witness for claim C7 at a concrete input. -/
theorem c7_save_without_id_witness :
    save_conversation "T" true [] rawNoId = (.error .redisError, []) :=
  c7_save_without_id "T" true [] rawNoId rfl

/-- Claim C10: a stored value that is valid JSON but misses a required key
makes get_conversation raise RedisError, and the None answer happens exactly
for an absent key or a value that does not decode. -/
theorem c10_get_taxonomy (now : String) (st : StoreState) (cid : String) :
    (∀ c, lookupK st cid = some (.rawJson c) → requiredPresent c = false →
      get_conversation now true st cid = .error .redisError) ∧
    (get_conversation now true st cid = .ok none ↔
      (lookupK st cid = none ∨ lookupK st cid = some .malformed)) := by
  constructor
  · intro c hl hreq
    have hs : sanitize_conversation now c = .error .valueError := by
      simp [sanitize_conversation, hreq]
    simp [get_conversation, hl, hs]
  · cases hl : lookupK st cid with
    | none => simp [get_conversation, hl]
    | some v =>
      cases v with
      | malformed => simp [get_conversation, hl]
      | nonDict => simp [get_conversation, hl]
      | rawJson c =>
        cases hs : sanitize_conversation now c with
        | error e => simp [get_conversation, hl, hs]
        | ok conv => simp [get_conversation, hl, hs]

/-- Witness for claim C10 at concrete inputs: a stored object without a title
raises RedisError, while an absent key answers None. -/
theorem c10_get_taxonomy_witness :
    get_conversation "T" true [("k", StoredVal.rawJson rawNoTitle)] "k"
      = .error .redisError ∧
    (get_conversation "T" true [("k", StoredVal.rawJson rawNoTitle)] "missing" = .ok none ↔
      (lookupK [("k", StoredVal.rawJson rawNoTitle)] "missing" = none ∨
        lookupK [("k", StoredVal.rawJson rawNoTitle)] "missing" = some .malformed)) :=
  ⟨(c10_get_taxonomy "T" [("k", StoredVal.rawJson rawNoTitle)] "k").1 rawNoTitle
      (by decide) (by decide),
    (c10_get_taxonomy "T" [("k", StoredVal.rawJson rawNoTitle)] "missing").2⟩

end VercelGemini
